import Mathlib

/-!
Verification of the invoice QC core: a shallow embedding of
src/invoice_qc/validator.py and src/invoice_qc/extractor.py, followed by
theorems about the validation and extraction logic.

Modelling conventions:
* Python dict values that can appear in invoice records are modelled by
  `Value` (absent / string / number).  A Python number (int, float, Decimal)
  is represented by its `str()` rendering, which for int/Decimal carries the
  exact value; floats are represented by their shortest-repr decimal string.
* `Decimal` values are modelled by `Rat` (exact decimal arithmetic embeds in
  the rationals).  `Decimal`'s special values (NaN, Infinity) are out of
  scope and modelled as unparseable.
* Python strings are Lean `String`s; `str.strip`, `str.lower` and the regex
  character class \s are modelled over their ASCII fragments.
* `datetime.date.today()` is an explicit `today` parameter.
-/

namespace InvoiceQC

/-! ### Python string primitives -/

/-- Whitespace recognised by Python's str.strip (ASCII fragment). -/
def isPySpace (c : Char) : Bool :=
  c == ' ' || c == '\t' || c == '\n' || c == '\r' || c == '\x0b' || c == '\x0c'

/-- str.strip(): remove leading and trailing whitespace. -/
def pyStrip (s : String) : String :=
  ⟨((s.data.dropWhile isPySpace).reverse.dropWhile isPySpace).reverse⟩

/-- str.lower() (ASCII model: Char.toLower lowercases A-Z). -/
def pyLower (s : String) : String := ⟨s.data.map Char.toLower⟩

/-- Does the needle match at the front of the haystack? -/
def leadEq : List Char → List Char → Bool
  | [], _ => true
  | _ :: _, [] => false
  | a :: as, b :: bs => a == b && leadEq as bs

/-- Helper for the substring test: does `n` occur in the list? -/
def containsChars (n : List Char) : List Char → Bool
  | [] => leadEq n []
  | c :: rest => leadEq n (c :: rest) || containsChars n rest

/-- Python's substring test `needle in hay`. -/
def containsSub (hay needle : String) : Bool := containsChars needle.data hay.data

/-- str.split of a string on the newline character, Python semantics
(n separators yield n+1 pieces; the empty string yields one empty piece). -/
def splitNl : List Char → List (List Char)
  | [] => [[]]
  | '\n' :: rest => [] :: splitNl rest
  | c :: rest =>
    match splitNl rest with
    | l :: ls => (c :: l) :: ls
    | [] => [[c]]

/-! ### Invoice field values and Python truthiness -/

/-- A Python value that can sit in an invoice record field: None, a string,
or a number given by its `str()` rendering (exact for int and Decimal). -/
inductive Value where
  | vNone
  | vStr (s : String)
  | vNum (s : String)
deriving DecidableEq

/-! ### Exact decimals (decimal.Decimal)

A finite Decimal is a mantissa together with a power-of-ten exponent; its
value is mant * 10 ^ exp.  Arithmetic and comparisons align exponents and
work on integers, exactly as Python's Decimal does. -/

structure Dec where
  mant : ℤ
  exp : ℤ
deriving DecidableEq

def pow10 : ℕ → ℤ
  | 0 => 1
  | n + 1 => 10 * pow10 n

/-- Rescale both operands to the smaller exponent; returns the two aligned
mantissas and the common exponent. -/
def Dec.align (a b : Dec) : ℤ × ℤ × ℤ :=
  let e := min a.exp b.exp
  (a.mant * pow10 (a.exp - e).toNat, b.mant * pow10 (b.exp - e).toNat, e)

def Dec.add (a b : Dec) : Dec :=
  let p := a.align b
  ⟨p.1 + p.2.1, p.2.2⟩

def Dec.sub (a b : Dec) : Dec :=
  let p := a.align b
  ⟨p.1 - p.2.1, p.2.2⟩

def Dec.abs (a : Dec) : Dec := ⟨if a.mant < 0 then -a.mant else a.mant, a.exp⟩

/-- Value-level strict order on decimals. -/
def Dec.lt (a b : Dec) : Bool :=
  let p := a.align b
  decide (p.1 < p.2.1)

/-- The rational value of a decimal (for specification statements). -/
def Dec.toRat (d : Dec) : ℚ := (d.mant : ℚ) * (10 : ℚ) ^ d.exp

/-! ### Decimal literal parsing (decimal.Decimal constructor) -/

def digitVal (c : Char) : Nat := c.toNat - 48

def natOfDigits (ds : List Char) : Nat := ds.foldl (fun a c => 10 * a + digitVal c) 0

/-- PEP 515: every underscore in a numeric literal must sit between two
digits.  `prev` is the previous character, if any. -/
def underscoresOk : Option Char → List Char → Bool
  | _, [] => true
  | prev, '_' :: rest =>
    (match prev with | some p => p.isDigit | none => false)
      && (match rest with | r :: _ => r.isDigit | [] => false)
      && underscoresOk (some '_') rest
  | _, c :: rest => underscoresOk (some c) rest

/-- Exponent tail: optional sign then a nonempty digit run, consuming the
whole remainder; shifts the exponent of the mantissa parsed so far. -/
def parseExpDigits (d : Dec) (cs : List Char) : Option Dec :=
  let p := match cs with
    | '+' :: r => ((1 : ℤ), r)
    | '-' :: r => ((-1 : ℤ), r)
    | r => ((1 : ℤ), r)
  if p.2 ≠ [] ∧ p.2.all Char.isDigit then
    some ⟨d.mant, d.exp + p.1 * (natOfDigits p.2 : ℤ)⟩
  else none

/-- After the digit part of a decimal literal: the end of the string or an
exponent marker. -/
def parseExpPart (d : Dec) : List Char → Option Dec
  | [] => some d
  | 'e' :: rest => parseExpDigits d rest
  | 'E' :: rest => parseExpDigits d rest
  | _ => none

/-- Unsigned decimal literal: digits, an optional point with further digits,
and an optional exponent; at least one digit must appear before the
exponent part. -/
def parseUnsigned (cs : List Char) : Option Dec :=
  let ip := cs.takeWhile Char.isDigit
  let r1 := cs.dropWhile Char.isDigit
  match r1 with
  | '.' :: r2 =>
    let fp := r2.takeWhile Char.isDigit
    let r3 := r2.dropWhile Char.isDigit
    if ip = [] ∧ fp = [] then none
    else parseExpPart ⟨(natOfDigits (ip ++ fp) : ℤ), -(fp.length : ℤ)⟩ r3
  | _ => if ip = [] then none else parseExpPart ⟨(natOfDigits ip : ℤ), 0⟩ r1

/-- Optional sign in front of an unsigned decimal literal. -/
def parseSigned : List Char → Option Dec
  | '+' :: rest => parseUnsigned rest
  | '-' :: rest => (parseUnsigned rest).map (fun d => ⟨-d.mant, d.exp⟩)
  | cs => parseUnsigned cs

/-- Decimal(s) for finite numeric strings: underscores are allowed between
digits (PEP 515) and removed before parsing.  Special values (NaN,
Infinity) and non-ASCII digits are out of scope of this model and map to
`none`. -/
def parseDecLit (s : String) : Option Dec :=
  if underscoresOk none s.data then parseSigned (s.data.filter (fun c => !(c == '_')))
  else none

/-- A Decimal literal appearing in the source, e.g. Decimal("0.05"). -/
def decimal (s : String) : Dec := (parseDecLit s).getD ⟨0, 0⟩

/-- Python truthiness of a record value: None and the empty string are
falsy; a number is falsy exactly when it is zero (numeric reprs that are
not finite decimal literals, such as nan/inf, are truthy). -/
def truthy : Value → Bool
  | .vNone => false
  | .vStr s => !(s == "")
  | .vNum s =>
    match parseDecLit s with
    | some d => !(d.mant == 0)
    | none => true

/-- Python str() of a record value, as used by f-strings and key building. -/
def pyStr : Value → String
  | .vNone => "None"
  | .vStr s => s
  | .vNum s => s

/-! ### parse_amount (validator.py lines 10-22) -/

/-- The cleaning step of parse_amount: remove every comma and currency
symbol, then strip surrounding whitespace. -/
def cleanAmountStr (s : String) : String :=
  pyStrip ⟨s.data.filter (fun c => !(c == ',') && !(c == '$') && !(c == '€') && !(c == '£'))⟩

/-- parse_amount: None stays None; a native number becomes
Decimal(str(x)), i.e. its exact decimal value; a string is cleaned of
commas and currency symbols, stripped, and parsed as a decimal literal,
with `none` on failure. -/
def parse_amount : Value → Option Dec
  | .vNone => none
  | .vNum s => parseDecLit s
  | .vStr s => parseDecLit (cleanAmountStr s)

example : parse_amount (.vStr "$1,150.00") = some ⟨115000, -2⟩ := by decide
example : parse_amount (.vStr "abc") = none := by decide
example : parse_amount (.vStr " €2.5 ") = some ⟨25, -1⟩ := by decide
example : parse_amount (.vNum "0.05") = some ⟨5, -2⟩ := by decide
example : parse_amount (.vStr "-1.5e2") = some ⟨-15, 1⟩ := by decide
example : parse_amount (.vStr "1.") = some ⟨1, 0⟩ := by decide
example : parse_amount (.vStr ".") = none := by decide
example : parse_amount (.vStr "1_000") = some ⟨1000, 0⟩ := by decide
example : parse_amount (.vStr "1__0") = none := by decide

/-! ### Dates (datetime.date / datetime.datetime and parse_date)

strptime is modelled per format token: %Y is exactly four digits, %m and %d
are one or two digits preferring two (matching the regexes CPython's
_strptime builds: 1[0-2]|0[1-9]|[1-9] for %m, 3[01]|[12]\d|0[1-9]|[1-9] for
%d — for these separator-delimited formats the greedy choice is
deterministic), %b is a three-letter month abbreviation, case-insensitive.
The whole string must be consumed, and datetime.date(y, m, d) then rejects
year 0 and days beyond the month length. -/

structure Date where
  year : ℕ
  month : ℕ
  day : ℕ
deriving DecidableEq

structure PyDatetime where
  toDate : Date
  hour : ℕ
  minute : ℕ
  second : ℕ
deriving DecidableEq

/-- What parse_date can return: a date or (for datetime input) a datetime. -/
inductive PyDateLike where
  | date (d : Date)
  | datetime (t : PyDatetime)
deriving DecidableEq

/-- The argument domain of parse_date. -/
inductive DateInput where
  | none
  | date (d : Date)
  | datetime (t : PyDatetime)
  | str (s : String)
deriving DecidableEq

/-- strptime format tokens for the six formats used by parse_date. -/
inductive FTok where
  | y4
  | mon2
  | day2
  | monName
  | lit (c : Char)
deriving DecidableEq

/-- Token %Y: exactly four digits. -/
def takeYear : List Char → Option (ℕ × List Char)
  | a :: b :: c :: d :: rest =>
    if a.isDigit ∧ b.isDigit ∧ c.isDigit ∧ d.isDigit then
      some (1000 * digitVal a + 100 * digitVal b + 10 * digitVal c + digitVal d, rest)
    else none
  | _ => none

/-- Tokens %m and %d: two digits when their value is in 1..hi, else one digit 1..9. -/
def takeNum2 (hi : ℕ) : List Char → Option (ℕ × List Char)
  | a :: b :: rest =>
    if a.isDigit ∧ b.isDigit ∧ 1 ≤ 10 * digitVal a + digitVal b ∧
        10 * digitVal a + digitVal b ≤ hi then
      some (10 * digitVal a + digitVal b, rest)
    else if a.isDigit ∧ 1 ≤ digitVal a then some (digitVal a, b :: rest)
    else none
  | [a] => if a.isDigit ∧ 1 ≤ digitVal a then some (digitVal a, []) else none
  | [] => none

/-- Month abbreviations of the C locale, lower-cased. -/
def monAbbr : String → Option ℕ
  | "jan" => some 1
  | "feb" => some 2
  | "mar" => some 3
  | "apr" => some 4
  | "may" => some 5
  | "jun" => some 6
  | "jul" => some 7
  | "aug" => some 8
  | "sep" => some 9
  | "oct" => some 10
  | "nov" => some 11
  | "dec" => some 12
  | _ => Option.none

/-- Token %b: three-letter month abbreviation, case-insensitive. -/
def takeMon : List Char → Option (ℕ × List Char)
  | a :: b :: c :: rest =>
    match monAbbr ⟨[a.toLower, b.toLower, c.toLower]⟩ with
    | some m => some (m, rest)
    | none => none
  | _ => none

/-- Run a token list over the input; strptime requires the entire string to
match.  Defaults (1900, 1, 1) as in CPython; every format here sets all
three fields anyway. -/
def runToks : List FTok → List Char → ℕ → ℕ → ℕ → Option (ℕ × ℕ × ℕ)
  | [], [], y, m, d => some (y, m, d)
  | [], _ :: _, _, _, _ => none
  | .y4 :: ts, cs, _, m, d =>
    match takeYear cs with
    | some p => runToks ts p.2 p.1 m d
    | none => none
  | .mon2 :: ts, cs, y, _, d =>
    match takeNum2 12 cs with
    | some p => runToks ts p.2 y p.1 d
    | none => none
  | .day2 :: ts, cs, y, m, _ =>
    match takeNum2 31 cs with
    | some p => runToks ts p.2 y m p.1
    | none => none
  | .monName :: ts, cs, y, _, d =>
    match takeMon cs with
    | some p => runToks ts p.2 y p.1 d
    | none => none
  | .lit c :: ts, cs, y, m, d =>
    match cs with
    | c2 :: rest => if c2 == c then runToks ts rest y m d else none
    | [] => none

def leapYear (y : ℕ) : Bool := y % 4 == 0 && (y % 100 != 0 || y % 400 == 0)

def daysInMonth (y m : ℕ) : ℕ :=
  if m = 2 then (if leapYear y then 29 else 28)
  else if m = 4 ∨ m = 6 ∨ m = 9 ∨ m = 11 then 30
  else 31

/-- datetime.date(y, m, d): rejects year 0 and out-of-range days (the month
is 1..12 by construction of the token parsers). -/
def mkDate (y m d : ℕ) : Option Date :=
  if 1 ≤ y ∧ 1 ≤ d ∧ d ≤ daysInMonth y m then some ⟨y, m, d⟩ else none

/-- datetime.datetime.strptime(s, fmt).date() for one format, None when the
format does not match or the calendar date is invalid. -/
def strptimeFmt (fmt : List FTok) (s : String) : Option Date :=
  match runToks fmt s.data 1900 1 1 with
  | some p => mkDate p.1 p.2.1 p.2.2
  | none => none

def fmtIso : List FTok := [.y4, .lit '-', .mon2, .lit '-', .day2]
def fmtDmy : List FTok := [.day2, .lit '/', .mon2, .lit '/', .y4]
def fmtMdy : List FTok := [.mon2, .lit '/', .day2, .lit '/', .y4]
def fmtYmd : List FTok := [.y4, .lit '/', .mon2, .lit '/', .day2]
def fmtDmyDash : List FTok := [.day2, .lit '-', .mon2, .lit '-', .y4]
def fmtDbY : List FTok := [.day2, .lit '-', .monName, .lit '-', .y4]

/-- The fixed format list of parse_date (validator.py lines 34-37), in
source order. -/
def dateFormats : List (List FTok) := [fmtIso, fmtDmy, fmtMdy, fmtYmd, fmtDmyDash, fmtDbY]

/-- The format loop of parse_date: first successful parse wins. -/
def tryFormats : List (List FTok) → String → Option Date
  | [], _ => Option.none
  | f :: fs, s =>
    match strptimeFmt f s with
    | some d => some d
    | none => tryFormats fs s

/-- parse_date (validator.py lines 24-44).  A datetime input satisfies
isinstance(x, datetime.date) because datetime.datetime is a subclass of
datetime.date, so line 28 returns it unchanged and the truncation branch at
lines 30-31 is unreachable. -/
def parse_date : DateInput → Option PyDateLike
  | .none => Option.none
  | .date d => some (.date d)
  | .datetime t => some (.datetime t)
  | .str s => (tryFormats dateFormats s).map .date

/-- parse_date restricted to record field values (the validator's call
site); a JSON-like record value is never a date object, so only the None
branch and the string fallback str(x) are reachable. -/
def parse_dateV : Value → Option Date
  | .vNone => Option.none
  | .vStr s => tryFormats dateFormats s
  | .vNum s => tryFormats dateFormats s

def Value.toDateInput : Value → DateInput
  | .vNone => .none
  | .vStr s => .str s
  | .vNum s => .str s

theorem parse_date_on_values (v : Value) :
    parse_date v.toDateInput = (parse_dateV v).map PyDateLike.date := by
  cases v <;> rfl

/-! ### Date ordering (date comparison and timedelta.days) -/

def daysBeforeMonth (y m : ℕ) : ℕ :=
  (List.range (m - 1)).foldl (fun a i => a + daysInMonth y (i + 1)) 0

/-- date.toordinal(): days since 0001-01-01, that date having ordinal 1
(proleptic Gregorian).  Comparison of dates and timedelta day counts both
reduce to ordinals. -/
def toOrdinal (d : Date) : ℕ :=
  let y1 := d.year - 1
  365 * y1 + y1 / 4 + y1 / 400 - y1 / 100 + daysBeforeMonth d.year d.month + d.day

/-- str(n) zero-padded to the given width. -/
def padNum (n w : ℕ) : String :=
  let s := toString n
  ⟨List.replicate (w - s.length) '0'⟩ ++ s

/-- str() of a date: ISO YYYY-MM-DD. -/
def dateStr (d : Date) : String :=
  padNum d.year 4 ++ ("-" ++ (padNum d.month 2 ++ ("-" ++ padNum d.day 2)))

example : parse_dateV (.vStr "2023-10-27") = some ⟨2023, 10, 27⟩ := by decide
example : parse_dateV (.vStr "03/04/2023") = some ⟨2023, 4, 3⟩ := by decide
example : parse_dateV (.vStr "1/23/2023") = some ⟨2023, 1, 23⟩ := by decide
example : parse_dateV (.vStr "30/02/2023") = Option.none := by decide
example : parse_dateV (.vStr "15-MAR-2023") = some ⟨2023, 3, 15⟩ := by decide
example : parse_dateV (.vStr "2023/10/05") = some ⟨2023, 10, 5⟩ := by decide
example : parse_dateV (.vStr "2023-10-27x") = Option.none := by decide
example : toOrdinal ⟨1, 1, 1⟩ = 1 := by decide
example : toOrdinal ⟨2000, 1, 1⟩ = 730120 := by decide

/-! ### Invoice records and validation results -/

/-- The record fields read by the validator.  Absence is the uniform
sentinel Value.vNone; remaining extractor fields (due_date, buyer_name,
currency, line_items) are never read by validate_invoice or
validate_batch. -/
structure Invoice where
  invoice_number : Value
  invoice_date : Value
  seller_name : Value
  net_total : Value
  tax_amount : Value
  gross_total : Value
deriving DecidableEq

inductive Status where
  | APPROVED
  | WARNING
  | REJECTED
deriving DecidableEq, BEq

structure VResult where
  invoice_number : Value
  is_valid : Bool
  status : Status
  errors : List String
  warnings : List String
  original_data : Invoice
deriving DecidableEq

/-- str(x or ""): the empty string when x is falsy, str(x) otherwise. -/
def orEmptyStr (v : Value) : String := if truthy v then pyStr v else ""

/-- The duplicate-detection key (validator.py lines 103-106 and 110-113,
the same computation at both places): normalized (seller_name,
invoice_number), stripped and lower-cased. -/
def normKey (inv : Invoice) : String × String :=
  (pyLower (pyStrip (orEmptyStr inv.seller_name)),
   pyLower (pyStrip (orEmptyStr inv.invoice_number)))

/-! Message texts.  Interpolated Decimal/str values are rendered by the
model (Decimal as mantissa E exponent); proofs about messages depend only
on their fixed prefixes, never on the rendering of the interpolated
values. -/

def decRepr (d : Dec) : String := toString d.mant ++ ("E" ++ toString d.exp)

def mathMsg (n t g : Dec) : String :=
  "Math mismatch: Net (" ++
    (decRepr n ++ (") + Tax (" ++ (decRepr t ++ (") != Gross (" ++ (decRepr g ++ ")")))))

def futureMsg (d : Date) : String := "Invoice date " ++ (dateStr d ++ " is in the future")

def oldMsg (d : Date) : String := "Invoice date " ++ (dateStr d ++ " is older than 365 days")

def dupMsgOf (inv : Invoice) : String :=
  "Duplicate invoice detected: " ++
    (pyStr inv.invoice_number ++ (" from " ++ pyStr inv.seller_name))

/-! ### validate_invoice (validator.py lines 46-134), split by rule block;
each block appends its messages in source order. -/

/-- Completeness errors for the two mandatory fields, in loop order. -/
def mandatoryErrors (inv : Invoice) : List String :=
  (if truthy inv.invoice_number then [] else ["Missing mandatory field: invoice_number"]) ++
  (if truthy inv.gross_total then [] else ["Missing mandatory field: gross_total"])

def completenessWarnings (inv : Invoice) : List String :=
  (if truthy inv.seller_name then [] else ["Missing seller_name"]) ++
  (if truthy inv.invoice_date then [] else ["Missing invoice_date"])

/-- Error "Invalid format for gross_total": the raw value is truthy but failed
amount parsing. -/
def grossFormatErrors (inv : Invoice) : List String :=
  if truthy inv.gross_total ∧ parse_amount inv.gross_total = Option.none then
    ["Invalid format for gross_total"]
  else []

def dateParseWarnings (inv : Invoice) : List String :=
  if truthy inv.invoice_date ∧ parse_dateV inv.invoice_date = Option.none then
    ["Could not parse invoice_date"]
  else []

/-- Arithmetic reconciliation: only when all three amounts parsed; warn
when abs(net + tax - gross) > Decimal("0.05"). -/
def mathWarnings (inv : Invoice) : List String :=
  match parse_amount inv.gross_total, parse_amount inv.net_total, parse_amount inv.tax_amount with
  | some g, some n, some t =>
    if Dec.lt (decimal "0.05") (Dec.abs (Dec.sub (Dec.add n t) g)) then [mathMsg n t g]
    else []
  | _, _, _ => []

/-- Date plausibility: only when the date parsed (a date object is always
truthy); future wins over the staleness check. -/
def dateWarnings (inv : Invoice) (today : Date) : List String :=
  match parse_dateV inv.invoice_date with
  | some d =>
    if toOrdinal today < toOrdinal d then [futureMsg d]
    else if (toOrdinal today : ℤ) - (toOrdinal d : ℤ) > 365 then [oldMsg d]
    else []
  | none => []

/-- Duplicate check: when both key components are non-empty, scan history
for the first equal key; the break makes the loop equivalent to an
existence test, and at most one message is appended. -/
def dupErrors (inv : Invoice) (history : List Invoice) : List String :=
  if !((normKey inv).1 == "") && !((normKey inv).2 == "") &&
      history.any (fun past => normKey past == normKey inv) then
    [dupMsgOf inv]
  else []

/-- Status determination (validator.py lines 118-125). -/
def statusOf (errors warns : List String) : Status :=
  if (errors.length == 0) = false then .REJECTED
  else if warns.length > 0 then .WARNING
  else .APPROVED

/-- validate_invoice; datetime.date.today() is the explicit `today`. -/
def validate_invoice (inv : Invoice) (history : List Invoice) (today : Date) : VResult :=
  let errors := mandatoryErrors inv ++ grossFormatErrors inv ++ dupErrors inv history
  let warns :=
    completenessWarnings inv ++ dateParseWarnings inv ++ mathWarnings inv ++
      dateWarnings inv today
  { invoice_number := inv.invoice_number
    is_valid := errors.length == 0
    status := statusOf errors warns
    errors := errors
    warnings := warns
    original_data := inv }

/-! ### validate_batch (validator.py lines 136-164) -/

/-- A record enters the rolling history iff invoice_number and seller_name
are both truthy (validator.py line 150). -/
def dupEligible (inv : Invoice) : Bool :=
  truthy inv.invoice_number && truthy inv.seller_name

/-- The batch loop: validate against the history built so far, then append
the raw record to the history when eligible. -/
def batchLoop (today : Date) : List Invoice → List Invoice → List VResult × List Invoice
  | [], hist => ([], hist)
  | inv :: rest, hist =>
    let result := validate_invoice inv hist today
    let hist2 := if dupEligible inv then hist ++ [inv] else hist
    let p := batchLoop today rest hist2
    (result :: p.1, p.2)

structure BatchSummary where
  total_processed : ℕ
  approved : ℕ
  warnings : ℕ
  rejected : ℕ
deriving DecidableEq

structure BatchReport where
  summary : BatchSummary
  details : List VResult
deriving DecidableEq

/-- The per-iteration tally counts[result.status] += 1, read off at the end
for the three possible statuses, equals counting statuses over the result
list. -/
def countStatus (s : Status) (rs : List VResult) : ℕ :=
  rs.countP (fun r => decide (r.status = s))

def validate_batch (today : Date) (invoices : List Invoice) : BatchReport :=
  let p := batchLoop today invoices []
  { summary :=
      { total_processed := invoices.length
        approved := countStatus .APPROVED p.1
        warnings := countStatus .WARNING p.1
        rejected := countStatus .REJECTED p.1 }
    details := p.1 }

/-! End-to-end check against the module's own test data (validator.py
lines 166-191): INV-001 approves, INV-002 warns (missing seller), INV-003
warns (math mismatch 80 + 10 vs 100), the second INV-001 rejects as a
duplicate. -/

def testInv1 : Invoice :=
  ⟨.vStr "INV-001", .vStr "2023-10-27", .vStr "Acme", .vStr "1000.00", .vStr "150.00", .vStr "1150.00"⟩

def testInv2 : Invoice :=
  ⟨.vStr "INV-002", .vStr "2023-10-28", .vNone, .vNone, .vNone, .vStr "500.00"⟩

def testInv3 : Invoice :=
  ⟨.vStr "INV-003", .vStr "2023-10-29", .vStr "Beta Corp", .vStr "80.00", .vStr "10.00", .vStr "100.00"⟩

def testInv4 : Invoice :=
  ⟨.vStr "INV-001", .vStr "2023-10-27", .vStr "Acme", .vNone, .vNone, .vStr "1150.00"⟩

example :
    (validate_batch ⟨2023, 10, 30⟩ [testInv1, testInv2, testInv3, testInv4]).summary =
      ⟨4, 1, 2, 1⟩ := by decide

example :
    ((validate_batch ⟨2023, 10, 30⟩ [testInv1, testInv2, testInv3, testInv4]).details.map
        (fun r => r.status)) =
      [.APPROVED, .WARNING, .WARNING, .REJECTED] := by decide

/-! ### Extractor: seller/buyer heuristic (extractor.py lines 102-116)

lines = [line.strip() for line in full_text.split('\n') if line.strip()];
seller_name is lines[0] when lines is nonempty; buyer_name is the line
after the first line where re.search(r"(?i)bill\s*to", line) hits, when
that following line exists. -/

def pyLines (text : String) : List String :=
  (splitNl text.data).filterMap
    (fun l => let t := pyStrip ⟨l⟩; if t == "" then Option.none else some t)

/-- Does the pattern bill\s*to (case-insensitive) match at the head of the
list?  The whitespace run is deterministic because 't' is not whitespace. -/
def billToAt : List Char → Bool
  | b :: i :: l1 :: l2 :: rest =>
    b.toLower == 'b' && i.toLower == 'i' && l1.toLower == 'l' && l2.toLower == 'l' &&
      (match rest.dropWhile isPySpace with
       | t1 :: o1 :: _ => t1.toLower == 't' && o1.toLower == 'o'
       | _ => false)
  | _ => false

/-- re.search: does the predicate match at any position? -/
def searchAt (p : List Char → Bool) : List Char → Bool
  | [] => p []
  | c :: rest => p (c :: rest) || searchAt p rest

def containsBillTo (line : String) : Bool := searchAt billToAt line.data

/-- The name heuristics of extract_from_pdf applied to the flattened text:
(seller_name, buyer_name). -/
def extractNames (text : String) : Option String × Option String :=
  let lines := pyLines text
  let seller := lines.head?
  let buyer :=
    match lines.findIdx? containsBillTo with
    | some i => lines[i + 1]?
    | none => Option.none
  (seller, buyer)

example : extractNames "Acme Corp\nBill To:\nBob Inc" = (some "Acme Corp", some "Bob Inc") := by
  decide
example : extractNames "" = (Option.none, Option.none) := by decide
example : extractNames "  \n \n" = (Option.none, Option.none) := by decide
example : containsBillTo "BILLTO" = true := by decide
example : containsBillTo "bill   to someone" = true := by decide
example : containsBillTo "billing total" = false := by decide

/-! ### Extractor: the date assignment loop (extractor.py lines 45-56)

dates_found is the finditer match list of the date keyword pattern, in text
order; each match is modelled by the pair (group(0), group(1)) = (full
matched text, captured date string).  For each match in order: if "due"
occurs in the lower-cased full match the date string is written to
due_date (unconditionally); otherwise it is written to invoice_date only
when invoice_date is still None. -/

def isDueMatch (m : String × String) : Bool := containsSub (pyLower m.1) "due"

def scanDatesAux : Option String → Option String → List (String × String) →
    Option String × Option String
  | invDate, dueDate, [] => (invDate, dueDate)
  | invDate, dueDate, m :: rest =>
    if isDueMatch m then scanDatesAux invDate (some m.2) rest
    else
      match invDate with
      | Option.none => scanDatesAux (some m.2) dueDate rest
      | some d => scanDatesAux (some d) dueDate rest

/-- The (invoice_date, due_date) pair produced by the date loop. -/
def scanDates (ms : List (String × String)) : Option String × Option String :=
  scanDatesAux Option.none Option.none ms

/-- Specification-side reading: the first non-due match. -/
def firstNonDueDate (ms : List (String × String)) : Option String :=
  ((ms.filter (fun m => !(isDueMatch m))).head?).map (fun m => m.2)

/-- Specification-side reading: the last due match. -/
def lastDueDate (ms : List (String × String)) : Option String :=
  ((ms.filter isDueMatch).getLast?).map (fun m => m.2)

example :
    scanDates [("Date: 01/02/2023", "01/02/2023"), ("Due: 01/03/2023", "01/03/2023")] =
      (some "01/02/2023", some "01/03/2023") := by decide
example :
    scanDates [("due 1/1/2020", "1/1/2020"), ("due 2/2/2021", "2/2/2021")] =
      (Option.none, some "2/2/2021") := by decide

/-! ### String discrimination helpers

Every message appended by the validator has a fixed literal prefix; two
messages with different characters at some index are different strings, no
matter what the interpolated tails are. -/

theorem strData_append (a b : String) : (a ++ b).data = a.data ++ b.data := rfl

theorem str_ne_of_data_get (i : ℕ) {a b : String} (h : a.data[i]? ≠ b.data[i]?) : a ≠ b :=
  fun e => h (by rw [e])

theorem getIdx_append_left {α : Type} {l₁ l₂ : List α} {n : ℕ} (h : n < l₁.length) :
    (l₁ ++ l₂)[n]? = l₁[n]? := by
  simp [List.getElem?_append, h]

theorem mathMsg_data0 (n t g : Dec) : (mathMsg n t g).data[0]? = some 'M' := by
  unfold mathMsg
  rw [strData_append, getIdx_append_left (by decide)]
  decide

theorem mathMsg_data1 (n t g : Dec) : (mathMsg n t g).data[1]? = some 'a' := by
  unfold mathMsg
  rw [strData_append, getIdx_append_left (by decide)]
  decide

theorem futureMsg_data0 (d : Date) : (futureMsg d).data[0]? = some 'I' := by
  unfold futureMsg
  rw [strData_append, getIdx_append_left (by decide)]
  decide

theorem oldMsg_data0 (d : Date) : (oldMsg d).data[0]? = some 'I' := by
  unfold oldMsg
  rw [strData_append, getIdx_append_left (by decide)]
  decide

theorem dupMsg_data0 (inv : Invoice) : (dupMsgOf inv).data[0]? = some 'D' := by
  unfold dupMsgOf
  rw [strData_append, getIdx_append_left (by decide)]
  decide

theorem mathMsg_ne_sellerWarn (n t g : Dec) : mathMsg n t g ≠ "Missing seller_name" :=
  str_ne_of_data_get 1 (by rw [mathMsg_data1]; decide)

theorem mathMsg_ne_dateWarn (n t g : Dec) : mathMsg n t g ≠ "Missing invoice_date" :=
  str_ne_of_data_get 1 (by rw [mathMsg_data1]; decide)

theorem mathMsg_ne_parseWarn (n t g : Dec) : mathMsg n t g ≠ "Could not parse invoice_date" :=
  str_ne_of_data_get 0 (by rw [mathMsg_data0]; decide)

theorem mathMsg_ne_futureMsg (n t g : Dec) (d : Date) : mathMsg n t g ≠ futureMsg d :=
  str_ne_of_data_get 0 (by rw [mathMsg_data0, futureMsg_data0]; decide)

theorem mathMsg_ne_oldMsg (n t g : Dec) (d : Date) : mathMsg n t g ≠ oldMsg d :=
  str_ne_of_data_get 0 (by rw [mathMsg_data0, oldMsg_data0]; decide)

theorem mathMsg_ne_missingNum (n t g : Dec) :
    mathMsg n t g ≠ "Missing mandatory field: invoice_number" :=
  str_ne_of_data_get 1 (by rw [mathMsg_data1]; decide)

theorem mathMsg_ne_missingGross (n t g : Dec) :
    mathMsg n t g ≠ "Missing mandatory field: gross_total" :=
  str_ne_of_data_get 1 (by rw [mathMsg_data1]; decide)

theorem mathMsg_ne_invalidGross (n t g : Dec) :
    mathMsg n t g ≠ "Invalid format for gross_total" :=
  str_ne_of_data_get 0 (by rw [mathMsg_data0]; decide)

theorem mathMsg_ne_dupMsg (n t g : Dec) (inv : Invoice) : mathMsg n t g ≠ dupMsgOf inv :=
  str_ne_of_data_get 0 (by rw [mathMsg_data0, dupMsg_data0]; decide)

theorem dupMsg_ne_missingNum (inv : Invoice) :
    dupMsgOf inv ≠ "Missing mandatory field: invoice_number" :=
  str_ne_of_data_get 0 (by rw [dupMsg_data0]; decide)

theorem dupMsg_ne_missingGross (inv : Invoice) :
    dupMsgOf inv ≠ "Missing mandatory field: gross_total" :=
  str_ne_of_data_get 0 (by rw [dupMsg_data0]; decide)

theorem dupMsg_ne_invalidGross (inv : Invoice) :
    dupMsgOf inv ≠ "Invalid format for gross_total" :=
  str_ne_of_data_get 0 (by rw [dupMsg_data0]; decide)

theorem invalidGross_ne_missingNum :
    ("Invalid format for gross_total" : String) ≠ "Missing mandatory field: invoice_number" := by
  decide

theorem invalidGross_ne_missingGross :
    ("Invalid format for gross_total" : String) ≠ "Missing mandatory field: gross_total" := by
  decide

/-! ### Dec arithmetic agrees with rational arithmetic -/

theorem pow10_eq (n : ℕ) : pow10 n = (10 : ℤ) ^ n := by
  induction n with
  | zero => rfl
  | succ k ih => rw [pow10, ih, pow_succ]; ring

/-- Aligned mantissas carry the value: m * 10^k times 10^e is m * 10^(k+e). -/
theorem cast_mul_pow10 (m : ℤ) (k : ℕ) (e : ℤ) :
    ((m * pow10 k : ℤ) : ℚ) * (10 : ℚ) ^ e = (m : ℚ) * (10 : ℚ) ^ ((k : ℤ) + e) := by
  rw [pow10_eq]
  push_cast
  rw [zpow_add₀ (by norm_num : (10 : ℚ) ≠ 0), zpow_natCast]
  ring

theorem aligned_val (m x e : ℤ) (h : e ≤ x) :
    ((m * pow10 (x - e).toNat : ℤ) : ℚ) * (10 : ℚ) ^ e = (m : ℚ) * (10 : ℚ) ^ x := by
  have hA : (((x - e).toNat : ℤ)) + e = x := by
    rw [Int.toNat_of_nonneg (show (0 : ℤ) ≤ x - e by omega)]
    omega
  rw [cast_mul_pow10, hA]

theorem align_fst_value (a b : Dec) :
    (((a.align b).1 : ℤ) : ℚ) * (10 : ℚ) ^ (a.align b).2.2 = a.toRat :=
  aligned_val a.mant a.exp (min a.exp b.exp) (min_le_left _ _)

theorem align_snd_value (a b : Dec) :
    (((a.align b).2.1 : ℤ) : ℚ) * (10 : ℚ) ^ (a.align b).2.2 = b.toRat :=
  aligned_val b.mant b.exp (min a.exp b.exp) (min_le_right _ _)

theorem toRat_add (a b : Dec) : (Dec.add a b).toRat = a.toRat + b.toRat := by
  rw [← align_fst_value a b, ← align_snd_value a b]
  unfold Dec.add Dec.toRat
  push_cast
  ring

theorem toRat_sub (a b : Dec) : (Dec.sub a b).toRat = a.toRat - b.toRat := by
  rw [← align_fst_value a b, ← align_snd_value a b]
  unfold Dec.sub Dec.toRat
  push_cast
  ring

theorem toRat_abs (a : Dec) : (Dec.abs a).toRat = |a.toRat| := by
  unfold Dec.abs Dec.toRat
  simp only
  rw [abs_mul, abs_of_pos (zpow_pos (by norm_num : (0 : ℚ) < 10) a.exp)]
  by_cases h : a.mant < 0
  · simp only [h, if_true]
    rw [abs_of_neg (by exact_mod_cast h)]
    push_cast
    ring
  · simp only [h, if_false]
    rw [abs_of_nonneg (by exact_mod_cast not_lt.mp h)]

theorem Dec.lt_iff (a b : Dec) : Dec.lt a b = true ↔ a.toRat < b.toRat := by
  rw [← align_fst_value a b, ← align_snd_value a b]
  unfold Dec.lt
  rw [decide_eq_true_eq]
  constructor
  · intro h
    exact mul_lt_mul_of_pos_right (by exact_mod_cast h)
      (zpow_pos (by norm_num : (0 : ℚ) < 10) _)
  · intro h
    have h2 : (((a.align b).1 : ℤ) : ℚ) < (((a.align b).2.1 : ℤ) : ℚ) :=
      lt_of_mul_lt_mul_right h (le_of_lt (zpow_pos (by norm_num : (0 : ℚ) < 10) _))
    exact_mod_cast h2

theorem toRat_tolerance : (decimal "0.05").toRat = 1 / 20 := by
  have h : decimal "0.05" = ⟨5, -2⟩ := by decide
  rw [h]
  show ((5 : ℤ) : ℚ) * (10 : ℚ) ^ (-2 : ℤ) = 1 / 20
  rw [zpow_neg]
  norm_num

/-! ### Characterization of validate_invoice fields -/

theorem errors_def (inv : Invoice) (hist : List Invoice) (today : Date) :
    (validate_invoice inv hist today).errors =
      mandatoryErrors inv ++ grossFormatErrors inv ++ dupErrors inv hist := rfl

theorem warnings_def (inv : Invoice) (hist : List Invoice) (today : Date) :
    (validate_invoice inv hist today).warnings =
      completenessWarnings inv ++ dateParseWarnings inv ++ mathWarnings inv ++
        dateWarnings inv today := rfl

theorem status_def (inv : Invoice) (hist : List Invoice) (today : Date) :
    (validate_invoice inv hist today).status =
      statusOf (validate_invoice inv hist today).errors
        (validate_invoice inv hist today).warnings := rfl

theorem is_valid_def (inv : Invoice) (hist : List Invoice) (today : Date) :
    (validate_invoice inv hist today).is_valid =
      ((validate_invoice inv hist today).errors.length == 0) := rfl

theorem original_data_def (inv : Invoice) (hist : List Invoice) (today : Date) :
    (validate_invoice inv hist today).original_data = inv := rfl

theorem statusOf_rejected_iff (e w : List String) : statusOf e w = .REJECTED ↔ e ≠ [] := by
  cases e <;> cases w <;> simp [statusOf]

theorem statusOf_nil_warning_iff (w : List String) : statusOf [] w = .WARNING ↔ w ≠ [] := by
  cases w <;> simp [statusOf]

theorem statusOf_nil_nil : statusOf [] [] = .APPROVED := rfl

/-! ### Truthiness and duplicate keys -/

theorem keyStr_empty_of_falsy {v : Value} (h : truthy v = false) :
    pyLower (pyStrip (orEmptyStr v)) = "" := by
  unfold orEmptyStr
  simp only [h, Bool.false_eq_true, if_false]
  decide

theorem truthy_of_key_fst {inv : Invoice} (h : (normKey inv).1 ≠ "") :
    truthy inv.seller_name = true := by
  by_contra hc
  rw [Bool.not_eq_true] at hc
  exact h (keyStr_empty_of_falsy hc)

theorem truthy_of_key_snd {inv : Invoice} (h : (normKey inv).2 ≠ "") :
    truthy inv.invoice_number = true := by
  by_contra hc
  rw [Bool.not_eq_true] at hc
  exact h (keyStr_empty_of_falsy hc)

theorem dupEligible_of_keys {inv : Invoice} (h1 : (normKey inv).1 ≠ "")
    (h2 : (normKey inv).2 ≠ "") : dupEligible inv = true := by
  unfold dupEligible
  rw [truthy_of_key_snd h2, truthy_of_key_fst h1]
  rfl

theorem dupErrors_eq_of_match {inv : Invoice} {hist : List Invoice}
    (h1 : (normKey inv).1 ≠ "") (h2 : (normKey inv).2 ≠ "")
    (hms : ∃ past ∈ hist, normKey past = normKey inv) :
    dupErrors inv hist = [dupMsgOf inv] := by
  unfold dupErrors
  rw [if_pos]
  simp only [Bool.and_eq_true, Bool.not_eq_true', beq_eq_false_iff_ne, ne_eq,
    List.any_eq_true, beq_iff_eq]
  exact ⟨⟨h1, h2⟩, hms⟩

theorem dupErrors_eq_nil_of_no_match {inv : Invoice} {hist : List Invoice}
    (hno : ∀ past ∈ hist, normKey past ≠ normKey inv) : dupErrors inv hist = [] := by
  unfold dupErrors
  rw [if_neg]
  intro hc
  simp only [Bool.and_eq_true, List.any_eq_true, beq_iff_eq] at hc
  rcases hc.2 with ⟨past, hp, he⟩
  exact hno past hp he

theorem dupErrors_match_of_mem {inv : Invoice} {hist : List Invoice}
    (h : dupMsgOf inv ∈ dupErrors inv hist) : ∃ past ∈ hist, normKey past = normKey inv := by
  unfold dupErrors at h
  by_cases hc :
      (!((normKey inv).1 == "") && !((normKey inv).2 == "") &&
        hist.any fun past => normKey past == normKey inv) = true
  · simp only [Bool.and_eq_true, List.any_eq_true, beq_iff_eq] at hc
    exact hc.2
  · rw [if_neg hc] at h
    simp at h

theorem dupMsg_not_in_base (inv inv2 : Invoice) :
    dupMsgOf inv ∉ mandatoryErrors inv2 ++ grossFormatErrors inv2 := by
  intro h
  rcases List.mem_append.mp h with h1 | h2
  · unfold mandatoryErrors at h1
    rcases List.mem_append.mp h1 with h3 | h3
    · revert h3
      split
      · simp
      · intro hh
        exact dupMsg_ne_missingNum inv (List.mem_singleton.mp hh)
    · revert h3
      split
      · simp
      · intro hh
        exact dupMsg_ne_missingGross inv (List.mem_singleton.mp hh)
  · unfold grossFormatErrors at h2
    revert h2
    split
    · intro hh
      exact dupMsg_ne_invalidGross inv (List.mem_singleton.mp hh)
    · simp

/-! ### Batch loop lemmas -/

theorem batchLoop_cons (t : Date) (inv : Invoice) (rest hist : List Invoice) :
    batchLoop t (inv :: rest) hist =
      (validate_invoice inv hist t ::
          (batchLoop t rest (if dupEligible inv then hist ++ [inv] else hist)).1,
        (batchLoop t rest (if dupEligible inv then hist ++ [inv] else hist)).2) := rfl

theorem batchLoop_length (t : Date) (L : List Invoice) :
    ∀ hist, (batchLoop t L hist).1.length = L.length := by
  induction L with
  | nil => intro hist; rfl
  | cons inv rest ih =>
    intro hist
    rw [batchLoop_cons]
    simp [ih]

theorem batchLoop_map_orig (t : Date) (L : List Invoice) :
    ∀ hist, (batchLoop t L hist).1.map (fun r => r.original_data) = L := by
  induction L with
  | nil => intro hist; rfl
  | cons inv rest ih =>
    intro hist
    rw [batchLoop_cons]
    simp only [List.map_cons, ih]
    rfl

theorem batchLoop_hist (t : Date) (L : List Invoice) :
    ∀ hist, (batchLoop t L hist).2 = hist ++ L.filter dupEligible := by
  induction L with
  | nil => intro hist; simp [batchLoop]
  | cons inv rest ih =>
    intro hist
    rw [batchLoop_cons]
    simp only
    rw [ih, List.filter_cons]
    by_cases hd : dupEligible inv = true
    · simp [hd, List.append_assoc]
    · simp [hd]

theorem batchLoop_getElem (t : Date) (L : List Invoice) :
    ∀ hist (i : ℕ),
      (batchLoop t L hist).1[i]? =
        (L[i]?).map
          (fun inv => validate_invoice inv (hist ++ (L.take i).filter dupEligible) t) := by
  induction L with
  | nil => intro hist i; simp [batchLoop]
  | cons inv rest ih =>
    intro hist i
    rw [batchLoop_cons]
    cases i with
    | zero => simp
    | succ j =>
      simp only [List.getElem?_cons_succ]
      rw [ih, List.take_succ_cons, List.filter_cons]
      by_cases hd : dupEligible inv = true
      · simp [hd, List.append_assoc]
      · simp [hd]

theorem countStatus_partition (rs : List VResult) :
    countStatus .APPROVED rs + countStatus .WARNING rs + countStatus .REJECTED rs =
      rs.length := by
  induction rs with
  | nil => rfl
  | cons r rest ih =>
    simp only [countStatus, List.countP_cons, List.length_cons] at *
    cases hs : r.status <;> simp only [hs, decide_eq_true_eq] <;> simp <;> omega

theorem mem_take_idx {α : Type} {L : List α} :
    ∀ {i : ℕ} {a : α}, a ∈ L.take i → ∃ j, j < i ∧ L[j]? = some a := by
  induction L with
  | nil => intro i a h; simp at h
  | cons x xs ih =>
    intro i a h
    cases i with
    | zero => simp at h
    | succ j0 =>
      rw [List.take_succ_cons] at h
      rcases List.mem_cons.mp h with h1 | h2
      · exact ⟨0, Nat.succ_pos _, by rw [h1]; simp⟩
      · rcases ih h2 with ⟨j, hj, hjl⟩
        exact ⟨j + 1, by omega, by rw [List.getElem?_cons_succ]; exact hjl⟩

/-! ### Concrete records used by witnesses and counterexamples -/

/-- A record with invoice number and gross total but no seller and no date:
no errors, two warnings. -/
def wInv : Invoice := ⟨.vStr "X", .vNone, .vNone, .vNone, .vNone, .vStr "10"⟩

/-- A record dated 2023-01-01, complete enough to have no errors. -/
def c8Inv : Invoice := ⟨.vStr "INV-9", .vStr "2023-01-01", .vStr "Acme", .vNone, .vNone, .vStr "10"⟩

/-- A record with a missing invoice number and a zero (present but falsy)
gross total. -/
def c10Inv : Invoice := ⟨.vNone, .vNone, .vNone, .vNone, .vNone, .vNum "0"⟩

/-! ### Claims -/

/-- Claim C1 (confirmed): for every invoice record and history (and current
date), the Validation Result has status REJECTED iff its errors list is
non-empty, regardless of warnings; with no errors the status is WARNING iff
the warnings list is non-empty, and APPROVED otherwise; is_valid is true
exactly when the errors list is empty; and is_valid can indeed be true
while the status is WARNING. -/
theorem claim_C1_status_determination :
    (∀ (inv : Invoice) (hist : List Invoice) (today : Date),
      ((validate_invoice inv hist today).status = .REJECTED ↔
        (validate_invoice inv hist today).errors ≠ []) ∧
      ((validate_invoice inv hist today).errors = [] →
        ((validate_invoice inv hist today).status = .WARNING ↔
          (validate_invoice inv hist today).warnings ≠ [])) ∧
      ((validate_invoice inv hist today).errors = [] →
        (validate_invoice inv hist today).warnings = [] →
        (validate_invoice inv hist today).status = .APPROVED) ∧
      ((validate_invoice inv hist today).is_valid = true ↔
        (validate_invoice inv hist today).errors = [])) ∧
    (∃ (inv : Invoice) (hist : List Invoice) (today : Date),
      (validate_invoice inv hist today).is_valid = true ∧
      (validate_invoice inv hist today).status = .WARNING) := by
  constructor
  · intro inv hist today
    rw [status_def, is_valid_def]
    refine ⟨statusOf_rejected_iff _ _, ?_, ?_, ?_⟩
    · intro he
      rw [he]
      exact statusOf_nil_warning_iff _
    · intro he hw
      rw [he, hw]
      rfl
    · simp [List.length_eq_zero]
  · exact ⟨wInv, [], ⟨2024, 1, 1⟩, by decide, by decide⟩

/-- Witness for C1 at a concrete record: the warning-iff part with the
errors-empty hypothesis discharged by evaluation. -/
theorem claim_C1_status_determination_witness :
    (validate_invoice wInv [] ⟨2024, 1, 1⟩).status = .WARNING ↔
      (validate_invoice wInv [] ⟨2024, 1, 1⟩).warnings ≠ [] :=
  (claim_C1_status_determination.1 wInv [] ⟨2024, 1, 1⟩).2.1 (by decide)

/-- Claim C3 (confirmed): for every input list, total_processed equals the
length of details equals the input length, the three summary counters sum
to total_processed, and details preserves the input order (the i-th result
carries the i-th input record as its original_data). -/
theorem claim_C3_batch_report_shape :
    ∀ (today : Date) (invoices : List Invoice),
      (validate_batch today invoices).summary.total_processed = invoices.length ∧
      (validate_batch today invoices).details.length = invoices.length ∧
      (validate_batch today invoices).summary.approved +
          (validate_batch today invoices).summary.warnings +
          (validate_batch today invoices).summary.rejected =
        (validate_batch today invoices).summary.total_processed ∧
      (validate_batch today invoices).details.map (fun r => r.original_data) = invoices := by
  intro t L
  refine ⟨rfl, batchLoop_length t L [], ?_, batchLoop_map_orig t L []⟩
  show countStatus .APPROVED (batchLoop t L []).1 + countStatus .WARNING (batchLoop t L []).1 +
      countStatus .REJECTED (batchLoop t L []).1 = L.length
  rw [countStatus_partition]
  exact batchLoop_length t L []

/-- Claim C8 counterexample: the same record validated against the same
(empty) history at two different current dates yields different results —
the staleness warning fires only on the later date — so the result is not
a function of (record, history) alone: the code reads hidden state, the
clock, via datetime.date.today(). -/
theorem claim_C8_counterexample :
    validate_invoice c8Inv [] ⟨2023, 6, 1⟩ ≠ validate_invoice c8Inv [] ⟨2025, 1, 1⟩ := by
  decide

/-- Claim C8 (amended): validate_invoice is pure and deterministic in its
two arguments together with the current date: invocations agreeing on
record, history and current date yield identical Validation Results, and
the input record is returned unmodified as original_data. -/
theorem claim_C8_pure_given_date :
    ∀ (inv1 inv2 : Invoice) (h1 h2 : List Invoice) (t1 t2 : Date),
      inv1 = inv2 → h1 = h2 → t1 = t2 →
      validate_invoice inv1 h1 t1 = validate_invoice inv2 h2 t2 ∧
      (validate_invoice inv1 h1 t1).original_data = inv1 := by
  intro inv1 inv2 h1 h2 t1 t2 hi hh ht
  subst hi
  subst hh
  subst ht
  exact ⟨rfl, rfl⟩

/-- Witness for the amended C8 at a concrete record, history and date. -/
theorem claim_C8_pure_given_date_witness :
    validate_invoice c8Inv [] ⟨2023, 6, 1⟩ = validate_invoice c8Inv [] ⟨2023, 6, 1⟩ ∧
      (validate_invoice c8Inv [] ⟨2023, 6, 1⟩).original_data = c8Inv :=
  claim_C8_pure_given_date c8Inv c8Inv [] [] ⟨2023, 6, 1⟩ ⟨2023, 6, 1⟩ rfl rfl rfl

/-- Claim C10 (confirmed): the mandatory-field check uses truthiness, not
presence: whenever invoice_number (or gross_total) is falsy — None, empty
string, or numeric zero — the "Missing mandatory field" error is appended
and the record is REJECTED; and a record with falsy invoice_number or
seller_name never enters the duplicate history (which is exactly the
truthiness filter of the input list). -/
theorem claim_C10_truthiness_checks :
    (∀ (inv : Invoice) (hist : List Invoice) (today : Date),
      (truthy inv.invoice_number = false →
        "Missing mandatory field: invoice_number" ∈ (validate_invoice inv hist today).errors ∧
          (validate_invoice inv hist today).status = .REJECTED) ∧
      (truthy inv.gross_total = false →
        "Missing mandatory field: gross_total" ∈ (validate_invoice inv hist today).errors ∧
          (validate_invoice inv hist today).status = .REJECTED)) ∧
    (∀ (today : Date) (invoices : List Invoice),
      (batchLoop today invoices []).2 = invoices.filter dupEligible) ∧
    (∀ inv : Invoice,
      truthy inv.invoice_number = false ∨ truthy inv.seller_name = false →
        dupEligible inv = false) := by
  refine ⟨?_, ?_, ?_⟩
  · intro inv hist today
    constructor
    · intro hf
      have hm : "Missing mandatory field: invoice_number" ∈ mandatoryErrors inv := by
        unfold mandatoryErrors
        simp [hf]
      have hmem : "Missing mandatory field: invoice_number" ∈
          (validate_invoice inv hist today).errors := by
        rw [errors_def]
        exact List.mem_append.mpr (Or.inl (List.mem_append.mpr (Or.inl hm)))
      exact ⟨hmem, by
        rw [status_def, statusOf_rejected_iff]
        exact List.ne_nil_of_mem hmem⟩
    · intro hf
      have hm : "Missing mandatory field: gross_total" ∈ mandatoryErrors inv := by
        unfold mandatoryErrors
        simp [hf]
      have hmem : "Missing mandatory field: gross_total" ∈
          (validate_invoice inv hist today).errors := by
        rw [errors_def]
        exact List.mem_append.mpr (Or.inl (List.mem_append.mpr (Or.inl hm)))
      exact ⟨hmem, by
        rw [status_def, statusOf_rejected_iff]
        exact List.ne_nil_of_mem hmem⟩
  · intro t L
    rw [batchLoop_hist t L []]
    simp
  · intro inv h
    unfold dupEligible
    rcases h with h | h <;> rw [h] <;> simp

/-- Witness for C10: a record with invoice_number = None and a numeric-zero
gross_total gets both mandatory errors and is REJECTED, and is not
duplicate-eligible. -/
theorem claim_C10_truthiness_checks_witness :
    ("Missing mandatory field: invoice_number" ∈
        (validate_invoice c10Inv [] ⟨2024, 1, 1⟩).errors ∧
      (validate_invoice c10Inv [] ⟨2024, 1, 1⟩).status = .REJECTED) ∧
    ("Missing mandatory field: gross_total" ∈
        (validate_invoice c10Inv [] ⟨2024, 1, 1⟩).errors ∧
      (validate_invoice c10Inv [] ⟨2024, 1, 1⟩).status = .REJECTED) ∧
    dupEligible c10Inv = false :=
  ⟨(claim_C10_truthiness_checks.1 c10Inv [] ⟨2024, 1, 1⟩).1 (by decide),
   (claim_C10_truthiness_checks.1 c10Inv [] ⟨2024, 1, 1⟩).2 (by decide),
   claim_C10_truthiness_checks.2.2 c10Inv (Or.inl (by decide))⟩

/-! ### Non-membership of the math-mismatch message in the other lists -/

theorem mathMsg_not_in_compWarn (n t g : Dec) (inv : Invoice) :
    mathMsg n t g ∉ completenessWarnings inv := by
  intro h
  unfold completenessWarnings at h
  rcases List.mem_append.mp h with h1 | h1
  · revert h1
    split
    · simp
    · intro hh
      exact mathMsg_ne_sellerWarn n t g (List.mem_singleton.mp hh)
  · revert h1
    split
    · simp
    · intro hh
      exact mathMsg_ne_dateWarn n t g (List.mem_singleton.mp hh)

theorem mathMsg_not_in_dateParse (n t g : Dec) (inv : Invoice) :
    mathMsg n t g ∉ dateParseWarnings inv := by
  intro h
  unfold dateParseWarnings at h
  revert h
  split
  · intro hh
    exact mathMsg_ne_parseWarn n t g (List.mem_singleton.mp hh)
  · simp

theorem mathMsg_not_in_dateWarn (n t g : Dec) (inv : Invoice) (today : Date) :
    mathMsg n t g ∉ dateWarnings inv today := by
  intro h
  unfold dateWarnings at h
  split at h
  · split at h
    · exact mathMsg_ne_futureMsg n t g _ (List.mem_singleton.mp h)
    · split at h
      · exact mathMsg_ne_oldMsg n t g _ (List.mem_singleton.mp h)
      · simp at h
  · simp at h

/-- Claim C5 counterexample: parse_amount returns the very same outcome,
None, for an absent input and for a present value whose cleaned string is
not a decimal literal — there is no distinct Unparseable result value. -/
theorem claim_C5_counterexample :
    parse_amount (Value.vStr "abc") = parse_amount Value.vNone ∧
      parse_amount Value.vNone = Option.none :=
  ⟨rfl, rfl⟩

/-- Claim C5 (amended): the amount normalizer collapses absence and
unparseability into the same None result; the distinction is made at the
call site by re-checking the raw value's truthiness — validate_invoice
emits "Invalid format for gross_total" exactly when gross_total is truthy
yet parse_amount returns None. -/
theorem claim_C5_absent_vs_unparseable :
    parse_amount Value.vNone = Option.none ∧
    parse_amount (Value.vStr "abc") = Option.none ∧
    ∀ (inv : Invoice) (hist : List Invoice) (today : Date),
      ("Invalid format for gross_total" ∈ (validate_invoice inv hist today).errors ↔
        truthy inv.gross_total = true ∧ parse_amount inv.gross_total = Option.none) := by
  refine ⟨rfl, rfl, ?_⟩
  intro inv hist today
  rw [errors_def]
  constructor
  · intro hmem
    rcases List.mem_append.mp hmem with h1 | h1
    · rcases List.mem_append.mp h1 with h2 | h2
      · exfalso
        unfold mandatoryErrors at h2
        rcases List.mem_append.mp h2 with h3 | h3
        · revert h3
          split
          · simp
          · intro hh
            exact invalidGross_ne_missingNum (List.mem_singleton.mp hh)
        · revert h3
          split
          · simp
          · intro hh
            exact invalidGross_ne_missingGross (List.mem_singleton.mp hh)
      · unfold grossFormatErrors at h2
        split at h2
        · assumption
        · simp at h2
    · exfalso
      unfold dupErrors at h1
      split at h1
      · exact dupMsg_ne_invalidGross inv ((List.mem_singleton.mp h1).symm)
      · simp at h1
  · intro hc
    apply List.mem_append.mpr
    left
    apply List.mem_append.mpr
    right
    unfold grossFormatErrors
    rw [if_pos hc]
    exact List.mem_singleton.mpr rfl

/-- A record whose gross_total is present (truthy) but unparseable. -/
def c5Inv : Invoice := ⟨.vStr "X", .vNone, .vNone, .vNone, .vNone, .vStr "12x"⟩

/-- Witness for the amended C5: the format error fires on a concrete
present-but-unparseable gross_total. -/
theorem claim_C5_absent_vs_unparseable_witness :
    "Invalid format for gross_total" ∈ (validate_invoice c5Inv [] ⟨2024, 1, 1⟩).errors :=
  (claim_C5_absent_vs_unparseable.2.2 c5Inv [] ⟨2024, 1, 1⟩).mpr ⟨by decide, by decide⟩

/-- Claim C4 (confirmed): whenever all three amounts normalize, the
arithmetic-mismatch warning is emitted iff |net + tax - gross| > 0.05 as
exact decimals; it is never an error; and exact equality emits nothing. -/
theorem claim_C4_arithmetic_tolerance :
    ∀ (inv : Invoice) (hist : List Invoice) (today : Date) (g n t : Dec),
      parse_amount inv.gross_total = some g →
      parse_amount inv.net_total = some n →
      parse_amount inv.tax_amount = some t →
      ((mathMsg n t g ∈ (validate_invoice inv hist today).warnings ↔
          |n.toRat + t.toRat - g.toRat| > 1 / 20) ∧
        mathMsg n t g ∉ (validate_invoice inv hist today).errors ∧
        (n.toRat + t.toRat = g.toRat →
          mathMsg n t g ∉ (validate_invoice inv hist today).warnings)) := by
  intro inv hist today g n t hg hn ht
  have hmw : mathWarnings inv =
      if Dec.lt (decimal "0.05") (Dec.abs (Dec.sub (Dec.add n t) g)) then [mathMsg n t g]
      else [] := by
    unfold mathWarnings
    rw [hg, hn, ht]
  have hcond :
      (Dec.lt (decimal "0.05") (Dec.abs (Dec.sub (Dec.add n t) g)) = true) ↔
        |n.toRat + t.toRat - g.toRat| > 1 / 20 := by
    rw [Dec.lt_iff, toRat_tolerance, toRat_abs, toRat_sub, toRat_add]
  have hiff : mathMsg n t g ∈ (validate_invoice inv hist today).warnings ↔
      |n.toRat + t.toRat - g.toRat| > 1 / 20 := by
    rw [warnings_def, hmw]
    constructor
    · intro hmem
      rcases List.mem_append.mp hmem with h1 | h1
      · rcases List.mem_append.mp h1 with h2 | h2
        · rcases List.mem_append.mp h2 with h3 | h3
          · exact absurd h3 (mathMsg_not_in_compWarn n t g inv)
          · exact absurd h3 (mathMsg_not_in_dateParse n t g inv)
        · by_cases hc : Dec.lt (decimal "0.05") (Dec.abs (Dec.sub (Dec.add n t) g)) = true
          · exact hcond.mp hc
          · rw [if_neg hc] at h2
            simp at h2
      · exact absurd h1 (mathMsg_not_in_dateWarn n t g inv today)
    · intro hgt
      apply List.mem_append.mpr
      left
      apply List.mem_append.mpr
      right
      rw [if_pos (hcond.mpr hgt)]
      exact List.mem_singleton.mpr rfl
  refine ⟨hiff, ?_, ?_⟩
  · intro hmem
    rw [errors_def] at hmem
    rcases List.mem_append.mp hmem with h1 | h1
    · rcases List.mem_append.mp h1 with h2 | h2
      · unfold mandatoryErrors at h2
        rcases List.mem_append.mp h2 with h3 | h3
        · revert h3
          split
          · simp
          · intro hh
            exact mathMsg_ne_missingNum n t g (List.mem_singleton.mp hh)
        · revert h3
          split
          · simp
          · intro hh
            exact mathMsg_ne_missingGross n t g (List.mem_singleton.mp hh)
      · unfold grossFormatErrors at h2
        split at h2
        · exact mathMsg_ne_invalidGross n t g (List.mem_singleton.mp h2)
        · simp at h2
    · unfold dupErrors at h1
      split at h1
      · exact mathMsg_ne_dupMsg n t g inv (List.mem_singleton.mp h1)
      · simp at h1
  · intro heq hmem
    have h2 := hiff.mp hmem
    rw [heq, sub_self, abs_zero] at h2
    norm_num at h2

/-- The record INV-003 of the module's own test data: 80.00 + 10.00 vs
100.00. -/
def c4Inv : Invoice :=
  ⟨.vStr "INV-3", .vNone, .vStr "Beta", .vStr "80.00", .vStr "10.00", .vStr "100.00"⟩

/-- Witness for C4 at the concrete mismatching record, all three parse
hypotheses discharged by evaluation. -/
theorem claim_C4_arithmetic_tolerance_witness :
    ((mathMsg ⟨8000, -2⟩ ⟨1000, -2⟩ ⟨10000, -2⟩ ∈
        (validate_invoice c4Inv [] ⟨2024, 1, 1⟩).warnings ↔
      |(Dec.mk 8000 (-2)).toRat + (Dec.mk 1000 (-2)).toRat - (Dec.mk 10000 (-2)).toRat| >
        1 / 20) ∧
      mathMsg ⟨8000, -2⟩ ⟨1000, -2⟩ ⟨10000, -2⟩ ∉
        (validate_invoice c4Inv [] ⟨2024, 1, 1⟩).errors ∧
      ((Dec.mk 8000 (-2)).toRat + (Dec.mk 1000 (-2)).toRat = (Dec.mk 10000 (-2)).toRat →
        mathMsg ⟨8000, -2⟩ ⟨1000, -2⟩ ⟨10000, -2⟩ ∉
          (validate_invoice c4Inv [] ⟨2024, 1, 1⟩).warnings)) :=
  claim_C4_arithmetic_tolerance c4Inv [] ⟨2024, 1, 1⟩ ⟨10000, -2⟩ ⟨8000, -2⟩ ⟨1000, -2⟩
    (by decide) (by decide) (by decide)

/-! ### Claim C2: order sensitivity of duplicate detection -/

theorem pair_dup_flags (t : Date) (A B : Invoice) (hk : normKey A = normKey B)
    (h1 : (normKey A).1 ≠ "") (h2 : (normKey A).2 ≠ "") :
    (validate_batch t [A, B]).details =
        [validate_invoice A [] t, validate_invoice B [A] t] ∧
      dupMsgOf B ∈ (validate_invoice B [A] t).errors ∧
      dupMsgOf A ∉ (validate_invoice A [] t).errors := by
  have hA : dupEligible A = true := dupEligible_of_keys h1 h2
  refine ⟨?_, ?_, ?_⟩
  · show (batchLoop t [A, B] []).1 = _
    simp [batchLoop, hA]
  · rw [errors_def]
    have hd : dupErrors B [A] = [dupMsgOf B] := by
      apply dupErrors_eq_of_match
      · rw [← hk]; exact h1
      · rw [← hk]; exact h2
      · exact ⟨A, List.mem_singleton.mpr rfl, hk⟩
    rw [hd]
    exact List.mem_append.mpr (Or.inr (List.mem_singleton.mpr rfl))
  · rw [errors_def]
    have hd : dupErrors A [] = [] := dupErrors_eq_nil_of_no_match (by intro past hp; simp at hp)
    rw [hd, List.append_nil]
    exact dupMsg_not_in_base A A

/-- Claim C2 (confirmed): duplicate detection is order-sensitive.  For
records A, B with equal, componentwise non-empty normalized keys, the batch
[A, B] flags B with a duplicate error and leaves A clean, and [B, A] does
the reverse; in general the first occurrence of a key in batch order is
never flagged, and every record carries at most one duplicate error even
when several earlier matches exist. -/
theorem claim_C2_duplicate_order :
    (∀ (today : Date) (A B : Invoice),
      normKey A = normKey B → (normKey A).1 ≠ "" → (normKey A).2 ≠ "" →
      ((validate_batch today [A, B]).details =
          [validate_invoice A [] today, validate_invoice B [A] today] ∧
        dupMsgOf B ∈ (validate_invoice B [A] today).errors ∧
        dupMsgOf A ∉ (validate_invoice A [] today).errors ∧
        (validate_batch today [B, A]).details =
          [validate_invoice B [] today, validate_invoice A [B] today] ∧
        dupMsgOf A ∈ (validate_invoice A [B] today).errors ∧
        dupMsgOf B ∉ (validate_invoice B [] today).errors)) ∧
    (∀ (today : Date) (L : List Invoice) (i : ℕ) (inv : Invoice) (res : VResult),
      L[i]? = some inv →
      (∀ (j : ℕ) (invJ : Invoice), j < i → L[j]? = some invJ → normKey invJ ≠ normKey inv) →
      (validate_batch today L).details[i]? = some res →
      dupMsgOf inv ∉ res.errors) ∧
    (∀ (today : Date) (L : List Invoice) (i : ℕ) (inv : Invoice) (res : VResult),
      L[i]? = some inv →
      (validate_batch today L).details[i]? = some res →
      List.count (dupMsgOf inv) res.errors ≤ 1) := by
  refine ⟨?_, ?_, ?_⟩
  · intro t A B hk h1 h2
    obtain ⟨p1, p2, p3⟩ := pair_dup_flags t A B hk h1 h2
    obtain ⟨q1, q2, q3⟩ :=
      pair_dup_flags t B A hk.symm (by rw [← hk]; exact h1) (by rw [← hk]; exact h2)
    exact ⟨p1, p2, p3, q1, q2, q3⟩
  · intro t L i inv res hinv hfirst hres
    have hd : (validate_batch t L).details = (batchLoop t L []).1 := rfl
    rw [hd, batchLoop_getElem t L [] i, hinv] at hres
    simp only [Option.map_some', List.nil_append] at hres
    have hr := Option.some.inj hres
    subst hr
    intro hmem
    rw [errors_def] at hmem
    rcases List.mem_append.mp hmem with h1 | h1
    · exact dupMsg_not_in_base inv inv h1
    · obtain ⟨past, hp, heq⟩ := dupErrors_match_of_mem h1
      have hp2 := List.mem_filter.mp hp
      obtain ⟨j, hj, hjl⟩ := mem_take_idx hp2.1
      exact hfirst j past hj hjl heq
  · intro t L i inv res hinv hres
    have hd : (validate_batch t L).details = (batchLoop t L []).1 := rfl
    rw [hd, batchLoop_getElem t L [] i, hinv] at hres
    simp only [Option.map_some', List.nil_append] at hres
    have hr := Option.some.inj hres
    subst hr
    rw [errors_def, List.count_append, List.count_append]
    have hb1 : List.count (dupMsgOf inv) (mandatoryErrors inv) = 0 :=
      List.count_eq_zero.mpr
        (fun h => dupMsg_not_in_base inv inv (List.mem_append.mpr (Or.inl h)))
    have hb2 : List.count (dupMsgOf inv) (grossFormatErrors inv) = 0 :=
      List.count_eq_zero.mpr
        (fun h => dupMsg_not_in_base inv inv (List.mem_append.mpr (Or.inr h)))
    have hb3 :
        List.count (dupMsgOf inv)
            (dupErrors inv ((L.take i).filter dupEligible)) ≤ 1 := by
      unfold dupErrors
      split
      · simp [List.count_cons]
      · simp
    omega

/-- First of the concrete key-colliding pair. -/
def c2A : Invoice := ⟨.vStr "INV-001", .vNone, .vStr "Acme", .vNone, .vNone, .vStr "10"⟩

/-- Second of the pair: same key after stripping and lower-casing. -/
def c2B : Invoice := ⟨.vStr " inv-001 ", .vNone, .vStr "ACME", .vNone, .vNone, .vStr "20"⟩

/-- Witness for C2 on the concrete colliding pair, the key hypotheses
discharged by evaluation. -/
theorem claim_C2_duplicate_order_witness :
    (validate_batch ⟨2024, 1, 1⟩ [c2A, c2B]).details =
        [validate_invoice c2A [] ⟨2024, 1, 1⟩, validate_invoice c2B [c2A] ⟨2024, 1, 1⟩] ∧
      dupMsgOf c2B ∈ (validate_invoice c2B [c2A] ⟨2024, 1, 1⟩).errors ∧
      dupMsgOf c2A ∉ (validate_invoice c2A [] ⟨2024, 1, 1⟩).errors ∧
      (validate_batch ⟨2024, 1, 1⟩ [c2B, c2A]).details =
        [validate_invoice c2B [] ⟨2024, 1, 1⟩, validate_invoice c2A [c2B] ⟨2024, 1, 1⟩] ∧
      dupMsgOf c2A ∈ (validate_invoice c2A [c2B] ⟨2024, 1, 1⟩).errors ∧
      dupMsgOf c2B ∉ (validate_invoice c2B [] ⟨2024, 1, 1⟩).errors :=
  claim_C2_duplicate_order.1 ⟨2024, 1, 1⟩ c2A c2B (by decide) (by decide) (by decide)

/-! ### Claim C6: the date assignment loop -/

theorem scanDatesAux_spec :
    ∀ (ms : List (String × String)) (inv due : Option String),
      scanDatesAux inv due ms =
        (inv <|> firstNonDueDate ms, lastDueDate ms <|> due) := by
  intro ms
  induction ms with
  | nil =>
    intro inv due
    simp [scanDatesAux, firstNonDueDate, lastDueDate]
  | cons m rest ih =>
    intro inv due
    by_cases hd : isDueMatch m = true
    · rw [show scanDatesAux inv due (m :: rest) = scanDatesAux inv (some m.2) rest from by
        simp [scanDatesAux, hd]]
      rw [ih]
      refine congrArg₂ Prod.mk ?_ ?_
      · simp [firstNonDueDate, List.filter_cons, hd]
      · cases hz : (rest.filter isDueMatch).getLast? <;>
          simp [lastDueDate, List.filter_cons, hd, List.getLast?_cons, hz]
    · have hstep : scanDatesAux inv due (m :: rest) =
          scanDatesAux (inv <|> some m.2) due rest := by
        cases inv <;> simp [scanDatesAux, hd]
      rw [hstep, ih]
      refine congrArg₂ Prod.mk ?_ ?_
      · have hf : firstNonDueDate (m :: rest) = some m.2 := by
          simp [firstNonDueDate, List.filter_cons, hd]
        rw [hf]
        cases inv <;> simp
      · simp [lastDueDate, List.filter_cons, hd]

/-- Claim C6 counterexample: two consecutive due-keyword matches.  The claim
says a due match never overwrites an already-set due_date, so due_date
should remain the first date string; the loop assigns unconditionally and
the second one wins. -/
theorem claim_C6_counterexample :
    (isDueMatch ("due: 1/1/2020", "1/1/2020") = true ∧
      isDueMatch ("due: 2/2/2021", "2/2/2021") = true) ∧
    (scanDates [("due: 1/1/2020", "1/1/2020"), ("due: 2/2/2021", "2/2/2021")]).2 =
      some "2/2/2021" ∧
    some "2/2/2021" ≠ some "1/1/2020" := by
  decide

/-- Claim C6 (amended): scanning the keyword-triggered date matches in text
order, a match whose lower-cased text contains "due" always (re)assigns
due_date — so the last due match wins — while a non-due match is assigned
to invoice_date only if invoice_date is still unset, so the first non-due
match wins and later non-due matches are ignored. -/
theorem claim_C6_date_assignment :
    ∀ ms : List (String × String),
      scanDates ms = (firstNonDueDate ms, lastDueDate ms) := by
  intro ms
  unfold scanDates
  rw [scanDatesAux_spec ms Option.none Option.none]
  simp

/-! ### Claim C9: seller/buyer heuristics -/

theorem findIdx?_spec {α : Type} (p : α → Bool) :
    ∀ (l : List α) (k : ℕ) (x : α) (s : ℕ), l[k]? = some x → p x = true →
      (∀ (j : ℕ) (y : α), j < k → l[j]? = some y → p y = false) →
      List.findIdx? p l s = some (s + k) := by
  intro l
  induction l with
  | nil => intro k x s h; simp at h
  | cons a as ih =>
    intro k x s hk hp hfirst
    rw [List.findIdx?_cons]
    cases k with
    | zero =>
      simp only [List.getElem?_cons_zero] at hk
      have ha := Option.some.inj hk
      rw [ha, if_pos hp]
      simp
    | succ k0 =>
      have hpa : p a = false := hfirst 0 a (Nat.succ_pos _) (by simp)
      rw [if_neg (by rw [hpa]; simp)]
      have hrec := ih k0 x (s + 1) (by simpa using hk) hp
        (fun j y hj hy => hfirst (j + 1) y (by omega) (by simpa using hy))
      rw [hrec]
      congr 1
      omega

theorem findIdx?_none_of_all {α : Type} (p : α → Bool) :
    ∀ (l : List α) (s : ℕ), (∀ x ∈ l, p x = false) → List.findIdx? p l s = none := by
  intro l
  induction l with
  | nil => intro s h; rfl
  | cons a as ih =>
    intro s h
    rw [List.findIdx?_cons]
    rw [if_neg (by rw [h a (List.mem_cons_self a as)]; simp)]
    exact ih (s + 1) (fun x hx => h x (List.mem_cons_of_mem a hx))

/-- Claim C9 counterexample: a line matching the regex bill\s*to without
containing the literal text "bill to".  The claim says buyer_name is left
missing when no line contains "bill to" (case-insensitive); the code
matches "BILLTO" and sets buyer_name to the following line. -/
theorem claim_C9_counterexample :
    ((pyLines "Acme\nBILLTO\nBob").all
        (fun l => !(containsSub (pyLower l) "bill to")) = true) ∧
      (extractNames "Acme\nBILLTO\nBob").2 = some "Bob" ∧
      some "Bob" ≠ (Option.none : Option String) := by
  decide

/-- Claim C9 (amended): seller_name is the first trimmed non-empty line
when one exists and missing otherwise; buyer_name is the line following the
first line matching bill\s*to — "bill", optional whitespace, "to",
case-insensitive — when that following line exists, and missing when no
line matches (extraction is total: it never raises). -/
theorem claim_C9_names_heuristics :
    ∀ text : String,
      (extractNames text).1 = (pyLines text).head? ∧
      (∀ (k : ℕ) (x : String),
        (pyLines text)[k]? = some x → containsBillTo x = true →
        (∀ (j : ℕ) (y : String), j < k → (pyLines text)[j]? = some y →
          containsBillTo y = false) →
        (extractNames text).2 = (pyLines text)[k + 1]?) ∧
      ((∀ (j : ℕ) (y : String), (pyLines text)[j]? = some y → containsBillTo y = false) →
        (extractNames text).2 = Option.none) := by
  intro text
  refine ⟨rfl, ?_, ?_⟩
  · intro k x hk hx hfirst
    have hf : (pyLines text).findIdx? containsBillTo = some k := by
      have := findIdx?_spec containsBillTo (pyLines text) k x 0 hk hx hfirst
      simpa using this
    show (match (pyLines text).findIdx? containsBillTo with
      | some i => (pyLines text)[i + 1]?
      | none => Option.none) = (pyLines text)[k + 1]?
    rw [hf]
  · intro hall
    have hf : (pyLines text).findIdx? containsBillTo = none := by
      apply findIdx?_none_of_all
      intro x hx
      rw [← List.take_length (l := pyLines text)] at hx
      obtain ⟨j, _, hj⟩ := mem_take_idx hx
      exact hall j x hj
    show (match (pyLines text).findIdx? containsBillTo with
      | some i => (pyLines text)[i + 1]?
      | none => Option.none) = Option.none
    rw [hf]

/-- Witness for the amended C9: the "Bill To:" line is matched first and the
following line becomes the buyer. -/
theorem claim_C9_names_heuristics_witness :
    (extractNames "Acme Corp\nBill To:\nBob Inc").2 =
      (pyLines "Acme Corp\nBill To:\nBob Inc")[2]? :=
  (claim_C9_names_heuristics "Acme Corp\nBill To:\nBob Inc").2.1 1 "Bill To:" (by decide)
    (by decide)
    (fun j y hj hy => by
      have hj0 : j = 0 := by omega
      subst hj0
      have hl : (pyLines "Acme Corp\nBill To:\nBob Inc")[0]? = some "Acme Corp" := by decide
      rw [hl] at hy
      have hy2 := Option.some.inj hy
      rw [← hy2]
      decide)

/-! ### Claim C7: parse_date format priority and the datetime branch -/

def c7Dt : PyDatetime := ⟨⟨2023, 1, 1⟩, 12, 30, 0⟩

/-- Claim C7: the format-priority parts hold (an ambiguous slash date
parses as DD/MM/YYYY, a date passes through unchanged), but a datetime
input is NOT truncated: datetime.datetime is a subclass of datetime.date,
so the isinstance date check at line 28 returns the datetime unchanged and
the truncation branch at lines 30-31 of validator.py is unreachable dead
code — evidently a slip, since that branch was written to truncate. -/
theorem claim_C7_datetime_not_truncated :
    parse_date (DateInput.datetime c7Dt) = some (PyDateLike.datetime c7Dt) ∧
      some (PyDateLike.datetime c7Dt) ≠ some (PyDateLike.date c7Dt.toDate) ∧
      parse_date (DateInput.str "03/04/2023") = some (PyDateLike.date ⟨2023, 4, 3⟩) ∧
      parse_date (DateInput.date ⟨2023, 5, 6⟩) = some (PyDateLike.date ⟨2023, 5, 6⟩) := by
  decide

end InvoiceQC
